import Mathlib

/-!
Shallow embedding of `src/main.py` of the Indian Legal Law Chatbot.

The program is a chat front-end: `get_gemini_response` builds a system
instruction from a selected legal domain, assembles the Gemini prompt
history from the transcript, and sends the newest message; `handle_input`
is the submission callback that appends the user turn, fetches a reply,
and appends the assistant turn.

The external Gemini client is modelled as an opaque function
`fetch : Prompt → Except Unit String` (an `Except.error` models
ExternalServiceFailure).  The Python list `st.session_state.chat_history`
is mutable and aliased, so the embedding threads it explicitly:
`get_gemini_response` returns the transcript object it was handed (it
never mutates it) together with the list of prompts it actually sent,
and `handle_input` returns the updated session state, the prompts sent
during the call, and the error that escaped (if any).
-/

namespace LegalChatbot

/-- A chat message as stored in `st.session_state.chat_history`:
a dict `{"role": r, "content": c}`. -/
structure Message where
  role : String
  content : String
  deriving DecidableEq

/-- A Gemini history entry as built on lines 42-45 of `main.py`:
a dict `{"role": r, "parts": [p]}`. -/
structure Entry where
  role : String
  parts : List String
  deriving DecidableEq

/-- The observable request made to the external client: the `history`
passed to `model.start_chat` plus the `trigger` string passed to
`chat.send_message`. -/
structure Prompt where
  history : List Entry
  trigger : String
  deriving DecidableEq

/-- The two ways `get_gemini_response` can fail: `chat.send_message`
raising (network/auth/quota - ExternalServiceFailure), or the
`messages[-1]` lookup raising IndexError on an empty transcript. -/
inductive GemError where
  | indexError : GemError
  | externalServiceFailure : GemError
  deriving DecidableEq

/-- Result of a call to `get_gemini_response`: the transcript object
after the call (the Python list is passed by reference and could in
principle be mutated), the prompts actually sent to the external
client, and the returned text or the error raised. -/
structure GemResult where
  messages : List Message
  calls : List Prompt
  result : Except GemError String

/-- `LEGAL_DOMAINS` from `main.py` lines 12-23. -/
def LEGAL_DOMAINS : List String :=
  ["All Laws",
   "IPC (Indian Penal Code)",
   "CrPC (Criminal Procedure Code)",
   "Civil Law",
   "Family Law",
   "Cyber Law",
   "Constitutional Law",
   "Consumer Law",
   "Property Law",
   "Labour Law"]

/-- `domain_text` from line 33:
`f" ({legal_domain})" if legal_domain and legal_domain != "All Laws" else ""`.
Python truthiness of a string is non-emptiness. -/
def domain_text (legal_domain : String) : String :=
  if legal_domain ≠ "" ∧ legal_domain ≠ "All Laws"
  then " (" ++ legal_domain ++ ")"
  else ""

/-- The instruction text before the domain qualifier (lines 35-36). -/
def instr_pre : String :=
  "You are a knowledgeable and precise Indian legal assistant. Provide concise answers based on Indian law"

/-- The instruction text after the domain qualifier (lines 36-38). -/
def instr_post : String :=
  ". If the law is unclear, say \x27Please consult a certified lawyer for this specific case.\x27 Do not fabricate any legal rules."

/-- `system_prompt` from lines 34-39: the f-string concatenation with
`domain_text` spliced in after "Indian law". -/
def system_prompt (legal_domain : String) : String :=
  instr_pre ++ domain_text legal_domain ++ instr_post

/-- One transcript message converted to a Gemini history entry
(line 44: `{"role": m["role"], "parts": [m["content"]]}`). -/
def historyEntry (m : Message) : Entry :=
  { role := m.role, parts := [m.content] }

/-- The `history=` list built on lines 42-45: the system prompt as a
user-role entry followed by every transcript message. -/
def gemini_history (messages : List Message) (legal_domain : String) : List Entry :=
  { role := "user", parts := [system_prompt legal_domain] } :: messages.map historyEntry

/-- `get_gemini_response` from lines 29-47.  `model.start_chat` builds
the history locally; the external call happens at
`chat.send_message(messages[-1]["content"])` (line 46).  On an empty
transcript `messages[-1]` raises IndexError before any call is sent. -/
def get_gemini_response (fetch : Prompt → Except Unit String)
    (messages : List Message) (legal_domain : String) : GemResult :=
  match messages.getLast? with
  | none =>
      { messages := messages, calls := [], result := Except.error GemError.indexError }
  | some last =>
      let p : Prompt := { history := gemini_history messages legal_domain, trigger := last.content }
      { messages := messages
        calls := [p]
        result :=
          match fetch p with
          | Except.ok t => Except.ok t
          | Except.error _ => Except.error GemError.externalServiceFailure }

/-- Embedding of Python `str.strip()` as used on line 121: drop
whitespace from both ends. -/
def pyStrip (s : String) : String :=
  String.mk (((s.toList.dropWhile Char.isWhitespace).reverse.dropWhile Char.isWhitespace).reverse)

/-- The session state touched by `handle_input`: `chat_history` and the
`user_input` text-box slot. -/
structure SessionState where
  chat_history : List Message
  user_input : String
  deriving DecidableEq

/-- The user-role message appended on line 122. -/
def userMsg (input : String) : Message :=
  { role := "user", content := input }

/-- The prompt `handle_input` causes to be sent when the input survives
the emptiness test: the system instruction followed by the transcript
with the fresh user message already appended, triggered by the input. -/
def submitted_prompt (chat_history : List Message) (input : String)
    (legal_domain : String) : Prompt :=
  { history := gemini_history (chat_history ++ [userMsg input]) legal_domain,
    trigger := input }

/-- `handle_input` from lines 119-126.  Python semantics: the `if
user_input.strip():` guard; the user message is appended *before* the
fetch; an exception escaping `get_gemini_response` propagates, leaving
the already-appended user message in place and the input slot
uncleared; on success the assistant message is appended and the input
slot cleared.  Returns (new state, prompts sent, escaped error). -/
def handle_input (fetch : Prompt → Except Unit String) (selected_domain : String)
    (s : SessionState) : SessionState × List Prompt × Option GemError :=
  let user_input := s.user_input
  if pyStrip user_input ≠ "" then
    let h1 := s.chat_history ++ [userMsg user_input]
    let r := get_gemini_response fetch h1 selected_domain
    match r.result with
    | Except.ok response =>
        ({ chat_history := r.messages ++ [{ role := "assistant", content := response }],
           user_input := "" }, r.calls, none)
    | Except.error e =>
        ({ chat_history := r.messages, user_input := user_input }, r.calls, some e)
  else
    (s, [], none)

example : pyStrip "  hi  " = "hi" := by decide

example : pyStrip "  \t\n " = "" := by decide

example : domain_text "All Laws" = "" := by decide

example : domain_text "Cyber Law" = " (Cyber Law)" := by decide

/-- Unfolding `get_gemini_response` when the transcript ends in a known
message: the lookup `messages[-1]` succeeds and exactly one prompt is
sent. -/
theorem get_gemini_response_concat (fetch : Prompt → Except Unit String)
    (hist : List Message) (m : Message) (d : String) :
    get_gemini_response fetch (hist ++ [m]) d =
      { messages := hist ++ [m],
        calls := [{ history := gemini_history (hist ++ [m]) d, trigger := m.content }],
        result :=
          match fetch { history := gemini_history (hist ++ [m]) d, trigger := m.content } with
          | Except.ok t => Except.ok t
          | Except.error _ => Except.error GemError.externalServiceFailure } := by
  unfold get_gemini_response
  rw [List.getLast?_concat]

/-- Unfolding `handle_input` when the input survives the `strip` test:
one prompt is sent, and the outcome depends only on the fetch result. -/
theorem handle_input_eq_of_nonblank (fetch : Prompt → Except Unit String)
    (d : String) (s : SessionState) (htrim : pyStrip s.user_input ≠ "") :
    handle_input fetch d s =
      match fetch (submitted_prompt s.chat_history s.user_input d) with
      | Except.ok reply =>
          ({ chat_history := s.chat_history ++ [userMsg s.user_input,
               { role := "assistant", content := reply }],
             user_input := "" },
           [submitted_prompt s.chat_history s.user_input d], none)
      | Except.error _ =>
          ({ chat_history := s.chat_history ++ [userMsg s.user_input],
             user_input := s.user_input },
           [submitted_prompt s.chat_history s.user_input d],
           some GemError.externalServiceFailure) := by
  unfold handle_input
  rw [if_pos htrim]
  simp only [get_gemini_response_concat]
  cases hf : fetch (submitted_prompt s.chat_history s.user_input d) <;>
    simp [submitted_prompt, userMsg, hf, List.append_assoc] <;>
    simp [submitted_prompt, userMsg] at hf <;> simp [hf]

/-- C1: for every submitted input whose strip is non-empty, when the
external fetch succeeds with `reply`, `handle_input` appends exactly two
messages to the transcript: first the user message carrying the input,
then the assistant message carrying `reply`, and nothing else (and one
prompt is sent, no error escapes, the input slot is cleared). -/
theorem c1_success_appends_user_then_assistant (fetch : Prompt → Except Unit String)
    (d : String) (s : SessionState) (reply : String)
    (htrim : pyStrip s.user_input ≠ "")
    (hf : fetch (submitted_prompt s.chat_history s.user_input d) = Except.ok reply) :
    handle_input fetch d s =
      ({ chat_history := s.chat_history ++
            [userMsg s.user_input, { role := "assistant", content := reply }],
         user_input := "" },
       [submitted_prompt s.chat_history s.user_input d], none) := by
  rw [handle_input_eq_of_nonblank fetch d s htrim, hf]

/-- C1 witness: concrete run with a successful fetch. -/
theorem c1_witness :
    handle_input (fun _ => Except.ok "Yes.") "All Laws"
        { chat_history := [], user_input := "Is bail a right?" } =
      ({ chat_history := [userMsg "Is bail a right?",
                          { role := "assistant", content := "Yes." }],
         user_input := "" },
       [submitted_prompt [] "Is bail a right?" "All Laws"], none) :=
  c1_success_appends_user_then_assistant (fun _ => Except.ok "Yes.") "All Laws"
    { chat_history := [], user_input := "Is bail a right?" } "Yes." (by decide) rfl

/-- C2: on every non-empty transcript, the prompt handed to the external
client has the system instruction (as a user-role entry) first, then
every transcript message in order, and re-sends the newest message as
the triggering turn. -/
theorem c2_prompt_shape (fetch : Prompt → Except Unit String)
    (messages : List Message) (d : String) (h : messages ≠ []) :
    (get_gemini_response fetch messages d).calls =
      [{ history := { role := "user", parts := [system_prompt d] } :: messages.map historyEntry,
         trigger := (messages.getLast h).content }] := by
  unfold get_gemini_response
  rw [List.getLast?_eq_getLast messages h]
  rfl

/-- C2 witness: concrete one-message transcript. -/
theorem c2_witness :
    (get_gemini_response (fun _ => Except.ok "ok") [userMsg "hi"] "All Laws").calls =
      [{ history := [{ role := "user", parts := [system_prompt "All Laws"] },
                     { role := "user", parts := ["hi"] }],
         trigger := "hi" }] := by
  rw [c2_prompt_shape (fun _ => Except.ok "ok") [userMsg "hi"] "All Laws"
    (List.cons_ne_nil _ _)]
  rfl

/-- C3: the sentinel "All Laws" yields an empty domain qualifier, so the
system instruction is the bare fixed text; every other member of the
domain enumeration gets its literal label spliced into the instruction. -/
theorem c3_domain_qualifier :
    domain_text "All Laws" = "" ∧
    system_prompt "All Laws" = instr_pre ++ instr_post ∧
    ∀ d ∈ LEGAL_DOMAINS, d ≠ "All Laws" →
      system_prompt d = instr_pre ++ (" (" ++ d ++ ")") ++ instr_post := by
  refine ⟨by simp [domain_text], by simp [system_prompt, domain_text], ?_⟩
  intro d hd hne
  fin_cases hd <;> simp_all [system_prompt, domain_text]

/-- C3 witness: a concrete non-sentinel domain. -/
theorem c3_witness :
    system_prompt "Cyber Law" = instr_pre ++ (" (" ++ "Cyber Law" ++ ")") ++ instr_post :=
  c3_domain_qualifier.2.2 "Cyber Law" (by decide) (by decide)

/-- C4: a submission that strips to the empty string changes nothing:
no message is appended, no prompt is sent, no error is raised, and the
whole session state is returned unchanged. -/
theorem c4_blank_input_is_noop (fetch : Prompt → Except Unit String)
    (d : String) (s : SessionState) (h : pyStrip s.user_input = "") :
    handle_input fetch d s = (s, [], none) := by
  simp [handle_input, h]

/-- C4 witness: whitespace-only input. -/
theorem c4_witness :
    handle_input (fun _ => Except.ok "unused") "Civil Law"
        { chat_history := [userMsg "earlier"], user_input := "  \t " } =
      ({ chat_history := [userMsg "earlier"], user_input := "  \t " }, [], none) :=
  c4_blank_input_is_noop (fun _ => Except.ok "unused") "Civil Law"
    { chat_history := [userMsg "earlier"], user_input := "  \t " } (by decide)

/-- C5: when the fetch fails, the user message stays appended, no
assistant message is appended, the input slot keeps its text, and the
failure escapes to the caller as ExternalServiceFailure. -/
theorem c5_failure_leaves_orphan_user_message (fetch : Prompt → Except Unit String)
    (d : String) (s : SessionState)
    (htrim : pyStrip s.user_input ≠ "")
    (hf : fetch (submitted_prompt s.chat_history s.user_input d) = Except.error ()) :
    handle_input fetch d s =
      ({ chat_history := s.chat_history ++ [userMsg s.user_input],
         user_input := s.user_input },
       [submitted_prompt s.chat_history s.user_input d],
       some GemError.externalServiceFailure) := by
  rw [handle_input_eq_of_nonblank fetch d s htrim, hf]

/-- C5 witness: concrete run with a failing fetch. -/
theorem c5_witness :
    handle_input (fun _ => Except.error ()) "All Laws"
        { chat_history := [], user_input := "Is bail a right?" } =
      ({ chat_history := [userMsg "Is bail a right?"],
         user_input := "Is bail a right?" },
       [submitted_prompt [] "Is bail a right?" "All Laws"],
       some GemError.externalServiceFailure) :=
  c5_failure_leaves_orphan_user_message (fun _ => Except.error ()) "All Laws"
    { chat_history := [], user_input := "Is bail a right?" } (by decide) rfl

/-- C6: the concrete scenario: empty transcript, input "What is Section
420 IPC?", domain "IPC (Indian Penal Code)".  The fetcher is invoked
with a two-entry prompt history (the domain-qualified system
instruction, then the question), and on success exactly two messages
are appended: the user question, then the assistant reply. -/
theorem c6_section420_scenario :
    handle_input (fun _ => Except.ok "It penalises cheating.")
        "IPC (Indian Penal Code)"
        { chat_history := [], user_input := "What is Section 420 IPC?" } =
      ({ chat_history := [userMsg "What is Section 420 IPC?",
                          { role := "assistant", content := "It penalises cheating." }],
         user_input := "" },
       [{ history := [{ role := "user", parts := [system_prompt "IPC (Indian Penal Code)"] },
                      { role := "user", parts := ["What is Section 420 IPC?"] }],
          trigger := "What is Section 420 IPC?" }],
       none) ∧
    system_prompt "IPC (Indian Penal Code)" =
      instr_pre ++ " (IPC (Indian Penal Code))" ++ instr_post := by
  constructor
  · rfl
  · simp [system_prompt, domain_text]

/-- C7: `get_gemini_response` never mutates the transcript it is given:
the transcript object coming out of the call is the one that went in,
whatever the fetch function, transcript, and domain. -/
theorem c7_transcript_not_mutated (fetch : Prompt → Except Unit String)
    (messages : List Message) (d : String) :
    (get_gemini_response fetch messages d).messages = messages := by
  unfold get_gemini_response
  cases h : messages.getLast? <;> rfl

/-- C8: the transcript is append-only: whatever `handle_input` does
(success, failure, or blank rejection), the old transcript is an
initial segment of the new one. -/
theorem c8_transcript_append_only (fetch : Prompt → Except Unit String)
    (d : String) (s : SessionState) :
    ∃ t, (handle_input fetch d s).1.chat_history = s.chat_history ++ t := by
  by_cases hb : pyStrip s.user_input ≠ ""
  · rw [handle_input_eq_of_nonblank fetch d s hb]
    cases hf : fetch (submitted_prompt s.chat_history s.user_input d) with
    | ok reply =>
        exact ⟨[userMsg s.user_input, { role := "assistant", content := reply }], by simp⟩
    | error e => exact ⟨[userMsg s.user_input], by simp⟩
  · exact ⟨[], by simp [handle_input, not_not.mp hb]⟩

/-- C9: `get_gemini_response` needs a non-empty transcript (on `[]` the
`messages[-1]` lookup fails with IndexError before any call is sent),
and `handle_input` always satisfies that precondition because it
appends the user message first: no run of `handle_input` can surface
the IndexError. -/
theorem c9_nonempty_precondition_holds :
    (∀ (fetch : Prompt → Except Unit String) (d : String),
      get_gemini_response fetch [] d =
        { messages := [], calls := [], result := Except.error GemError.indexError }) ∧
    (∀ (fetch : Prompt → Except Unit String) (d : String) (s : SessionState),
      (handle_input fetch d s).2.2 = none ∨
      (handle_input fetch d s).2.2 = some GemError.externalServiceFailure) := by
  constructor
  · intro fetch d
    rfl
  · intro fetch d s
    by_cases hb : pyStrip s.user_input ≠ ""
    · rw [handle_input_eq_of_nonblank fetch d s hb]
      cases hf : fetch (submitted_prompt s.chat_history s.user_input d) <;> simp
    · simp [handle_input, not_not.mp hb]

/-- C10: the user message appended for a surviving submission carries
the submitted string verbatim (whitespace included); the stripped form
is used only for the emptiness test. -/
theorem c10_user_message_verbatim (fetch : Prompt → Except Unit String)
    (d : String) (s : SessionState) (h : pyStrip s.user_input ≠ "") :
    ∃ t, (handle_input fetch d s).1.chat_history =
      s.chat_history ++ userMsg s.user_input :: t := by
  rw [handle_input_eq_of_nonblank fetch d s h]
  cases hf : fetch (submitted_prompt s.chat_history s.user_input d) with
  | ok reply => exact ⟨[{ role := "assistant", content := reply }], by simp⟩
  | error e => exact ⟨[], by simp⟩

/-- C10 witness: input with leading and trailing whitespace is stored
verbatim, not stripped. -/
theorem c10_witness :
    ∃ t, (handle_input (fun _ => Except.ok "a") "All Laws"
        { chat_history := [], user_input := "  What is bail?  " }).1.chat_history =
      [] ++ userMsg "  What is bail?  " :: t :=
  c10_user_message_verbatim (fun _ => Except.ok "a") "All Laws"
    { chat_history := [], user_input := "  What is bail?  " } (by decide)

end LegalChatbot
